import Mathlib

/-!
Verification of the in-process message broker and server glue of
`autogpt/core/runner/server.py`.

The data model (`Role`, `Message`, metadata) and the broker's channel dispatch
live in `autogpt/core/messaging/simple.py`, which is not among the provided
source files; those parts are modelled from the spec and marked as such.
Everything else is embedded from `server.py` directly, with Python's dynamic
semantics (KeyError on a missing dict key, TypeError on `bool & str`,
AttributeError on setting an attribute of a bare `object()`) made explicit
through an `Except` error type.
-/

namespace AutoGPT

/-- Modelled from the spec: the participant role enum of
`autogpt/core/messaging/simple.py` (not among the provided sources); the spec
gives `enum\x7bUSER, AGENT, AGENT_FACTORY}`. -/
inductive Role where
  | USER
  | AGENT
  | AGENT_FACTORY
  deriving DecidableEq, Repr

/-- A dynamic (Python) value stored in a message's `content` or
`additional_metadata` mapping. The filters only ever combine booleans and
strings, so the value universe is kept to those two tags. -/
inductive PyVal where
  | str (s : String)
  | bool (b : Bool)
  deriving DecidableEq, Repr

/-- The Python exceptions the embedded code can raise. -/
inductive PyError where
  | keyError
  | typeError
  | attributeError
  deriving DecidableEq, Repr

/-- A Python dict as an insertion-ordered association list (keys unique by
construction in Python; lookups take the first binding). -/
abbrev Dict (α : Type) : Type := List (String × α)

/-- Modelled from the spec: the sender identity of
`autogpt/core/messaging/simple.py` (not among the provided sources); the spec
gives a `(name, role)` pair. -/
structure Sender where
  name : String
  role : Role
  deriving DecidableEq, Repr

/-- Modelled from the spec: message metadata of
`autogpt/core/messaging/simple.py` (not among the provided sources): the sender
identity plus the open-ended `additional_metadata` mapping. -/
structure MessageMetadata where
  sender : Sender
  additional_metadata : Dict PyVal
  deriving DecidableEq, Repr

/-- Modelled from the spec: the immutable message of
`autogpt/core/messaging/simple.py` (not among the provided sources): a content
mapping plus metadata. -/
structure Message where
  content : Dict PyVal
  metadata : MessageMetadata
  deriving DecidableEq, Repr

/-- Python `d[k]` on a plain dict: the first binding of `k`, `KeyError` when
the key is absent. -/
def pyDictGet {α : Type} (d : Dict α) (k : String) : Except PyError α :=
  match d with
  | [] => Except.error PyError.keyError
  | p :: rest => if p.1 == k then Except.ok p.2 else pyDictGet rest k

/-- Python `b & v` where `b` is a `bool`: for a `bool` right operand the
bitwise AND of two booleans is their conjunction; for a `str` right operand
neither `bool.__and__` nor `str.__rand__` applies, so it raises `TypeError`. -/
def pyBoolAnd (b : Bool) (v : PyVal) : Except PyError PyVal :=
  match v with
  | PyVal.bool c => Except.ok (PyVal.bool (b && c))
  | PyVal.str _ => Except.error PyError.typeError

/-- Python `v == s` for a string literal `s`: equality across types is total
and returns `False` when `v` is not a string. -/
def pyEqString (v : PyVal) (s : String) : Bool :=
  match v with
  | PyVal.str t => t == s
  | PyVal.bool _ => false

namespace MessageFilters

/-- Embeds `MessageFilters.is_user_message`: `metadata.sender.role == Role.USER`. -/
def is_user_message (message : Message) : Bool :=
  message.metadata.sender.role == Role.USER

/-- Embeds `MessageFilters.is_agent_message`: `metadata.sender.role == Role.AGENT`. -/
def is_agent_message (message : Message) : Bool :=
  message.metadata.sender.role == Role.AGENT

/-- Embeds `MessageFilters.is_agent_factory_message`:
`metadata.sender.role == Role.AGENT_FACTORY`. -/
def is_agent_factory_message (message : Message) : Bool :=
  message.metadata.sender.role == Role.AGENT_FACTORY

/-- Embeds `MessageFilters.is_server_message`: the two role predicates each
return a `bool`, and Python's bitwise `|` on two booleans is their
disjunction, so the composite is total. -/
def is_server_message (message : Message) : Bool :=
  is_agent_message message || is_agent_factory_message message

/-- Embeds `MessageFilters.is_user_bootstrap_message`. The Python body is
`is_user_message(message) & metadata.additional_metadata["instruction"] == "bootstrap_agent"`;
`&` binds tighter than `==`, so this evaluates the subscript (raising
`KeyError` on a missing key), then `bool & value` (raising `TypeError` for a
string value), then compares the result to the string. -/
def is_user_bootstrap_message (message : Message) : Except PyError Bool :=
  match pyDictGet message.metadata.additional_metadata "instruction" with
  | Except.error e => Except.error e
  | Except.ok v =>
    match pyBoolAnd (is_user_message message) v with
    | Except.error e => Except.error e
    | Except.ok r => Except.ok (pyEqString r "bootstrap_agent")

/-- Embeds `MessageFilters.is_user_launch_message`, identical to the bootstrap
filter with the string `"launch_agent"`. -/
def is_user_launch_message (message : Message) : Except PyError Bool :=
  match pyDictGet message.metadata.additional_metadata "instruction" with
  | Except.error e => Except.error e
  | Except.ok v =>
    match pyBoolAnd (is_user_message message) v with
    | Except.error e => Except.error e
    | Except.ok r => Except.ok (pyEqString r "launch_agent")

end MessageFilters

/-- A USER message carrying the string instruction `"bootstrap_agent"`, as the
server's own `boostrap_new_agent` endpoint produces. -/
def bootstrapRequestMessage : Message :=
  { content := []
    metadata :=
      { sender := { name := "autogpt-user", role := Role.USER }
        additional_metadata := [("instruction", PyVal.str "bootstrap_agent")] } }

/-- A USER message carrying the string instruction `"launch_agent"`. -/
def launchRequestMessage : Message :=
  { content := []
    metadata :=
      { sender := { name := "autogpt-user", role := Role.USER }
        additional_metadata := [("instruction", PyVal.str "launch_agent")] } }

/-- A USER message whose `additional_metadata` lacks the `"instruction"` key. -/
def noInstructionMessage : Message :=
  { content := []
    metadata :=
      { sender := { name := "autogpt-user", role := Role.USER }
        additional_metadata := [] } }

/-- C7: each base role predicate returns true iff the sender's role equals the
predicate's role. -/
theorem role_predicates_test_sender_role (message : Message) :
    (MessageFilters.is_user_message message = true ↔
      message.metadata.sender.role = Role.USER) ∧
    (MessageFilters.is_agent_message message = true ↔
      message.metadata.sender.role = Role.AGENT) ∧
    (MessageFilters.is_agent_factory_message message = true ↔
      message.metadata.sender.role = Role.AGENT_FACTORY) := by
  refine ⟨?_, ?_, ?_⟩ <;>
    simp [MessageFilters.is_user_message, MessageFilters.is_agent_message,
      MessageFilters.is_agent_factory_message]

/-- C6: `is_server_message` is the disjunction of the AGENT and AGENT_FACTORY
role predicates. -/
theorem is_server_message_iff_agent_or_factory (message : Message) :
    MessageFilters.is_server_message message = true ↔
      (message.metadata.sender.role = Role.AGENT ∨
       message.metadata.sender.role = Role.AGENT_FACTORY) := by
  simp [MessageFilters.is_server_message, MessageFilters.is_agent_message,
    MessageFilters.is_agent_factory_message]

/-- C1 (code bug): on a USER message whose `"instruction"` metadata is the
string `"bootstrap_agent"` (resp. `"launch_agent"`) — exactly the messages the
claim says the composite accepts — the source raises `TypeError` (from
`bool & str`) instead of returning true; indeed neither composite can ever
return `True` on any message. -/
theorem bootstrap_and_launch_filters_raise :
    MessageFilters.is_user_bootstrap_message bootstrapRequestMessage
      = Except.error PyError.typeError ∧
    MessageFilters.is_user_launch_message launchRequestMessage
      = Except.error PyError.typeError ∧
    (∀ message : Message,
      MessageFilters.is_user_bootstrap_message message ≠ Except.ok true) ∧
    (∀ message : Message,
      MessageFilters.is_user_launch_message message ≠ Except.ok true) := by
  refine ⟨rfl, rfl, ?_, ?_⟩ <;>
    · intro message h
      simp only [MessageFilters.is_user_bootstrap_message,
        MessageFilters.is_user_launch_message] at h
      cases hv : pyDictGet message.metadata.additional_metadata "instruction" with
      | error e => simp [hv] at h
      | ok v =>
        cases v with
        | str s => simp [hv, pyBoolAnd] at h
        | bool b => simp [hv, pyBoolAnd, pyEqString] at h

/-- C2 (code bug): the instruction-based predicates are not total: on a
well-formed USER message whose `additional_metadata` lacks the
`"instruction"` key they raise `KeyError` instead of evaluating to false. -/
theorem instruction_filters_raise_on_missing_key :
    MessageFilters.is_user_bootstrap_message noInstructionMessage
      = Except.error PyError.keyError ∧
    MessageFilters.is_user_launch_message noInstructionMessage
      = Except.error PyError.keyError := by
  exact ⟨rfl, rfl⟩

/-! ## Python dict merge and `_send_message` -/

/-- Python dict lookup as an `Option` (first binding wins). -/
def pyLookup {α : Type} (d : Dict α) (k : String) : Option α :=
  match d with
  | [] => none
  | p :: rest => if p.1 == k then some p.2 else pyLookup rest k

/-- Python `d[k] = v` on an insertion-ordered dict: an existing key keeps its
position and gets the new value, a new key is appended at the end. -/
def pyDictSet {α : Type} (d : Dict α) (k : String) (v : α) : Dict α :=
  match d with
  | [] => [(k, v)]
  | p :: rest => if p.1 == k then (k, v) :: rest else p :: pyDictSet rest k v

/-- The Python dict display with two double-star unpackings: the first
mapping's entries, updated left to right by the second mapping's entries. -/
def pyDictMerge {α : Type} (base extra : Dict α) : Dict α :=
  extra.foldl (fun acc p => pyDictSet acc p.1 p.2) base

theorem pyLookup_pyDictSet_self {α : Type} (d : Dict α) (k : String) (v : α) :
    pyLookup (pyDictSet d k v) k = some v := by
  induction d with
  | nil => simp [pyDictSet, pyLookup]
  | cons p rest ih =>
    by_cases h : p.1 = k
    · simp [pyDictSet, pyLookup, h]
    · simp [pyDictSet, pyLookup, h, ih]

theorem pyLookup_pyDictSet_of_ne {α : Type} (d : Dict α) (ks k : String) (v : α)
    (h : k ≠ ks) : pyLookup (pyDictSet d ks v) k = pyLookup d k := by
  induction d with
  | nil => simp [pyDictSet, pyLookup, Ne.symm h]
  | cons p rest ih =>
    by_cases hp : p.1 = ks
    · simp [pyDictSet, pyLookup, hp, Ne.symm h]
    · simp only [pyDictSet]
      by_cases hk : p.1 = k
      · simp [pyLookup, hp, hk, h]
      · simp [pyLookup, hp, hk, ih]

theorem pyLookup_pyDictMerge_of_not_mem {α : Type} (extra : Dict α) (k : String) :
    ∀ base : Dict α, k ∉ extra.map Prod.fst →
      pyLookup (pyDictMerge base extra) k = pyLookup base k := by
  induction extra with
  | nil => intro base _; rfl
  | cons p rest ih =>
    intro base h
    simp only [List.map_cons, List.mem_cons, not_or] at h
    have hstep : pyDictMerge base (p :: rest)
        = pyDictMerge (pyDictSet base p.1 p.2) rest := rfl
    rw [hstep, ih _ h.2, pyLookup_pyDictSet_of_ne _ _ _ _ h.1]

theorem pyLookup_pyDictMerge_mem {α : Type} (extra : Dict α) (k : String) (v : α) :
    ∀ base : Dict α, (extra.map Prod.fst).Nodup → (k, v) ∈ extra →
      pyLookup (pyDictMerge base extra) k = some v := by
  induction extra with
  | nil => intro base _ hmem; cases hmem
  | cons p rest ih =>
    intro base hnd hmem
    have hstep : pyDictMerge base (p :: rest)
        = pyDictMerge (pyDictSet base p.1 p.2) rest := rfl
    simp only [List.map_cons, List.nodup_cons] at hnd
    rcases List.mem_cons.mp hmem with heq | hmem2
    · have hk : p.1 = k := by rw [← heq]
      have hv : p.2 = v := by rw [← heq]
      rw [hstep, pyLookup_pyDictMerge_of_not_mem rest k _ (hk ▸ hnd.1), hk, hv,
        pyLookup_pyDictSet_self]
    · rw [hstep]
      exact ih (pyDictSet base p.1 p.2) hnd.2 hmem2

/-- The `request.json` mapping `_send_message` reads: the `"content"` and
`"metadata"` entries of a well-formed request. -/
structure RequestJson where
  content : Dict PyVal
  metadata : Dict PyVal
  deriving DecidableEq, Repr

/-- The dict display `_send_message` builds from a base mapping and one of its
optional extras: unpacking `None` with a double star raises `TypeError`. -/
def starStarMerge {α : Type} (base : Dict α) (extra : Option (Dict α)) :
    Except PyError (Dict α) :=
  match extra with
  | none => Except.error PyError.typeError
  | some e => Except.ok (pyDictMerge base e)

/-- Setting `response.status_code` on a freshly created bare `object()`:
`object` instances have no instance dictionary, so the assignment raises
`AttributeError` whichever branch runs. -/
def objectSetAttr : Except PyError Unit :=
  Except.error PyError.attributeError

/-- What one call of `_send_message` does: the merged `(content, metadata)`
pair handed to the emitter's `send_message` when execution reaches it, and the
call's outcome. -/
structure SendMessageRun where
  sent : Option (Dict PyVal × Dict PyVal)
  result : Except PyError Unit
  deriving Repr

/-- Embeds `FakeApplicationServer._send_message`: merge the request content
with `extra_content`, merge the request metadata with `extra_metadata`, send
the merged pair through the user emitter, then build the response object. -/
def sendMessage (request : RequestJson)
    (extra_content extra_metadata : Option (Dict PyVal)) : SendMessageRun :=
  match starStarMerge request.content extra_content with
  | Except.error e => { sent := none, result := Except.error e }
  | Except.ok content =>
    match starStarMerge request.metadata extra_metadata with
    | Except.error e => { sent := none, result := Except.error e }
    | Except.ok metadata =>
      { sent := some (content, metadata)
        result := objectSetAttr }

/-- C9: `_send_message` raises on every input: with a `None` extra the dict
merge raises `TypeError` before anything is sent, and with both extras
supplied the merged message is sent and then `response.status_code` on a bare
`object()` raises `AttributeError`; no call returns a response. -/
theorem sendMessage_always_raises (request : RequestJson)
    (extra_content extra_metadata : Option (Dict PyVal)) :
    (∃ e, (sendMessage request extra_content extra_metadata).result
      = Except.error e) ∧
    ((extra_content = none ∨ extra_metadata = none) →
      (sendMessage request extra_content extra_metadata).sent = none ∧
      (sendMessage request extra_content extra_metadata).result
        = Except.error PyError.typeError) ∧
    (∀ ec em, extra_content = some ec → extra_metadata = some em →
      (sendMessage request extra_content extra_metadata).sent
        = some (pyDictMerge request.content ec, pyDictMerge request.metadata em) ∧
      (sendMessage request extra_content extra_metadata).result
        = Except.error PyError.attributeError) := by
  cases extra_content <;> cases extra_metadata <;>
    simp [sendMessage, starStarMerge, objectSetAttr]

/-- C5: when a key occurs both in the request-supplied mapping and in the
non-None extras, the merged content and metadata that `_send_message` passes
to the emitter carry the extras' value (last-write-wins). -/
theorem sendMessage_extras_override (request : RequestJson)
    (ec em : Dict PyVal) (k km : String) (v vm : PyVal)
    (hecnd : (ec.map Prod.fst).Nodup) (hemnd : (em.map Prod.fst).Nodup)
    (hkc : k ∈ request.content.map Prod.fst) (hvc : (k, v) ∈ ec)
    (hkm : km ∈ request.metadata.map Prod.fst) (hvm : (km, vm) ∈ em) :
    (sendMessage request (some ec) (some em)).sent
      = some (pyDictMerge request.content ec, pyDictMerge request.metadata em) ∧
    pyLookup (pyDictMerge request.content ec) k = some v ∧
    pyLookup (pyDictMerge request.metadata em) km = some vm := by
  refine ⟨rfl, ?_, ?_⟩
  · exact pyLookup_pyDictMerge_mem ec k v request.content hecnd hvc
  · exact pyLookup_pyDictMerge_mem em km vm request.metadata hemnd hvm

/-- A request whose content and metadata each collide with an extras key. -/
def sampleRequest : RequestJson :=
  { content := [("agent_name", PyVal.str "caller")]
    metadata := [("instruction", PyVal.str "from_request")] }

/-- The extra content `boostrap_new_agent` style callers supply, colliding on
`"agent_name"`. -/
def sampleExtraContent : Dict PyVal := [("agent_name", PyVal.str "from_extras")]

/-- The extra metadata colliding on `"instruction"`. -/
def sampleExtraMetadata : Dict PyVal := [("instruction", PyVal.str "bootstrap_agent")]

theorem sendMessage_extras_override_witness :
    (sendMessage sampleRequest (some sampleExtraContent) (some sampleExtraMetadata)).sent
      = some (pyDictMerge sampleRequest.content sampleExtraContent,
          pyDictMerge sampleRequest.metadata sampleExtraMetadata) ∧
    pyLookup (pyDictMerge sampleRequest.content sampleExtraContent) "agent_name"
      = some (PyVal.str "from_extras") ∧
    pyLookup (pyDictMerge sampleRequest.metadata sampleExtraMetadata) "instruction"
      = some (PyVal.str "bootstrap_agent") :=
  sendMessage_extras_override sampleRequest sampleExtraContent sampleExtraMetadata
    "agent_name" "instruction" (PyVal.str "from_extras") (PyVal.str "bootstrap_agent")
    (by decide) (by decide) (by decide) (by decide) (by decide) (by decide)

/-! ## Channel dispatch (modelled from the spec) -/

/-- Modelled from the spec: the outcome of one listener callback invocation
(the broker's callbacks live in `autogpt/core/messaging/simple.py` and the
agent modules, none among the provided sources). -/
inductive CallbackOutcome where
  | ok
  | failure (err : String)
  deriving DecidableEq, Repr

/-- Modelled from the spec: a listener registration on a channel of
`SimpleMessageBroker` (`autogpt/core/messaging/simple.py` is not among the
provided sources): a filter predicate plus the callback, represented by the
outcome it produces on each message. -/
structure ListenerRegistration where
  filter : Message → Bool
  callback : Message → CallbackOutcome

/-- Modelled from the spec: what `publish` reports — listeners evaluated,
matched, succeeded, failed, and the (registration index, error) pairs of the
failures. -/
structure DispatchResult where
  evaluated : Nat
  matched : Nat
  succeeded : Nat
  failed : Nat
  failures : List (Nat × String)
  deriving DecidableEq, Repr

/-- Modelled from the spec: a `publish` call's transport-level success flag,
its dispatch report, and the trace of which registrations (by index, in
order) had their callback invoked. -/
structure PublishOutcome where
  success : Bool
  dispatch : DispatchResult
  invoked : List Nat
  deriving DecidableEq, Repr

/-- The registration indices (counting from `i`) whose filter accepts the
message, in registration order: exactly the callbacks dispatch invokes. -/
def matchingFrom (message : Message) (i : Nat) :
    List ListenerRegistration → List Nat
  | [] => []
  | L :: rest =>
    if L.filter message then i :: matchingFrom message (i + 1) rest
    else matchingFrom message (i + 1) rest

/-- The (index, error) pairs (counting from `i`) of the matching registrations
whose callback fails on the message, in registration order. -/
def failuresFrom (message : Message) (i : Nat) :
    List ListenerRegistration → List (Nat × String)
  | [] => []
  | L :: rest =>
    if L.filter message then
      match L.callback message with
      | CallbackOutcome.ok => failuresFrom message (i + 1) rest
      | CallbackOutcome.failure err => (i, err) :: failuresFrom message (i + 1) rest
    else failuresFrom message (i + 1) rest

/-- Modelled from the spec: the channel's dispatch loop — evaluate every
registration's filter in registration order, invoke each matching callback,
record per-listener failures, and report transport success regardless of
individual listener outcomes. -/
def publish (registrations : List ListenerRegistration) (message : Message) :
    PublishOutcome :=
  let invoked := matchingFrom message 0 registrations
  let failures := failuresFrom message 0 registrations
  { success := true
    dispatch :=
      { evaluated := registrations.length
        matched := invoked.length
        succeeded := invoked.length - failures.length
        failed := failures.length
        failures := failures }
    invoked := invoked }

theorem matchingFrom_le (message : Message) :
    ∀ (registrations : List ListenerRegistration) (s x : Nat),
      x ∈ matchingFrom message s registrations → s ≤ x := by
  intro registrations
  induction registrations with
  | nil => intro s x hx; cases hx
  | cons L rest ih =>
    intro s x hx
    by_cases hf : L.filter message
    · simp only [matchingFrom, hf, if_true, List.mem_cons] at hx
      rcases hx with rfl | hx
      · exact Nat.le_refl x
      · exact Nat.le_of_succ_le (ih (s + 1) x hx)
    · simp only [matchingFrom, hf, if_false] at hx
      exact Nat.le_of_succ_le (ih (s + 1) x hx)

theorem count_matchingFrom (message : Message) :
    ∀ (registrations : List ListenerRegistration) (s j : Nat)
      (h : j < registrations.length),
      (matchingFrom message s registrations).count (s + j)
        = if (registrations.get ⟨j, h⟩).filter message then 1 else 0 := by
  intro registrations
  induction registrations with
  | nil => intro s j h; cases h
  | cons L rest ih =>
    intro s j h
    have hcount : (matchingFrom message (s + 1) rest).count s = 0 := by
      rw [List.count_eq_zero]
      intro hmem
      exact Nat.not_succ_le_self s (matchingFrom_le message rest (s + 1) s hmem)
    cases j with
    | zero =>
      by_cases hf : L.filter message
      · simp [matchingFrom, hf, List.count_cons, hcount]
      · simp [matchingFrom, hf, hcount]
    | succ j =>
      have hj : j < rest.length := Nat.lt_of_succ_lt_succ h
      have harith : s + (j + 1) = (s + 1) + j := by omega
      have hne : ((s : Nat) == (s + 1) + j) = false := by
        simp only [beq_eq_false_iff_ne]
        omega
      have hget : ((L :: rest).get ⟨j + 1, h⟩) = rest.get ⟨j, hj⟩ := rfl
      rw [hget, harith]
      by_cases hf : L.filter message
      · simp only [matchingFrom, hf, if_true, List.count_cons, hne]
        rw [ih (s + 1) j hj]
        simp
      · rw [Bool.not_eq_true] at hf
        simp only [matchingFrom, hf, Bool.false_eq_true, if_false]
        exact ih (s + 1) j hj

theorem mem_matchingFrom (message : Message) :
    ∀ (registrations : List ListenerRegistration) (s j : Nat)
      (h : j < registrations.length),
      (registrations.get ⟨j, h⟩).filter message = true →
      s + j ∈ matchingFrom message s registrations := by
  intro registrations
  induction registrations with
  | nil => intro s j h; cases h
  | cons L rest ih =>
    intro s j h hf
    cases j with
    | zero =>
      simp only [List.get] at hf
      simp [matchingFrom, hf]
    | succ j =>
      have hj : j < rest.length := Nat.lt_of_succ_lt_succ h
      have harith : s + (j + 1) = (s + 1) + j := by omega
      simp only [List.get] at hf
      have hmem := ih (s + 1) j hj hf
      by_cases hL : L.filter message
      · simp only [matchingFrom, hL, if_true, harith]
        exact List.mem_cons_of_mem s hmem
      · simp only [matchingFrom, hL, if_false, harith]
        exact hmem

theorem mem_failuresFrom (message : Message) :
    ∀ (registrations : List ListenerRegistration) (s j : Nat)
      (h : j < registrations.length) (err : String),
      (registrations.get ⟨j, h⟩).filter message = true →
      (registrations.get ⟨j, h⟩).callback message = CallbackOutcome.failure err →
      (s + j, err) ∈ failuresFrom message s registrations := by
  intro registrations
  induction registrations with
  | nil => intro s j h; cases h
  | cons L rest ih =>
    intro s j h err hf hc
    cases j with
    | zero =>
      simp only [List.get] at hf hc
      simp [failuresFrom, hf, hc]
    | succ j =>
      have hj : j < rest.length := Nat.lt_of_succ_lt_succ h
      have harith : s + (j + 1) = (s + 1) + j := by omega
      simp only [List.get] at hf hc
      have hmem := ih (s + 1) j hj err hf hc
      by_cases hL : L.filter message
      · cases hcase : L.callback message with
        | ok => simp only [failuresFrom, hL, if_true, hcase, harith]; exact hmem
        | failure e =>
          simp only [failuresFrom, hL, if_true, hcase, harith]
          exact List.mem_cons_of_mem _ hmem
      · simp only [failuresFrom, hL, if_false, harith]
        exact hmem

/-- C3: for every channel listener list and published message, a listener
whose filter accepts the message has its callback invoked exactly once during
that publish, and a listener whose filter rejects it is never invoked. -/
theorem publish_invokes_matching_exactly_once
    (registrations : List ListenerRegistration) (message : Message)
    (j : Nat) (h : j < registrations.length) :
    ((registrations.get ⟨j, h⟩).filter message = true →
      (publish registrations message).invoked.count j = 1) ∧
    ((registrations.get ⟨j, h⟩).filter message = false →
      (publish registrations message).invoked.count j = 0) := by
  have hcount := count_matchingFrom message registrations 0 j h
  rw [Nat.zero_add] at hcount
  constructor
  · intro hf
    show (matchingFrom message 0 registrations).count j = 1
    rw [hcount, hf]
    simp
  · intro hf
    show (matchingFrom message 0 registrations).count j = 0
    rw [hcount, hf]
    simp

/-- C4: when a matching listener's callback fails, the failure is recorded in
the DispatchResult, every later matching listener is still invoked for the
same message, and the publish call still reports transport success. -/
theorem publish_isolates_listener_failures
    (registrations : List ListenerRegistration) (message : Message)
    (j : Nat) (h : j < registrations.length) (err : String)
    (hf : (registrations.get ⟨j, h⟩).filter message = true)
    (hc : (registrations.get ⟨j, h⟩).callback message
      = CallbackOutcome.failure err) :
    (j, err) ∈ (publish registrations message).dispatch.failures ∧
    (∀ i (hi : i < registrations.length), j < i →
      (registrations.get ⟨i, hi⟩).filter message = true →
      i ∈ (publish registrations message).invoked) ∧
    (publish registrations message).success = true := by
  refine ⟨?_, ?_, rfl⟩
  · have := mem_failuresFrom message registrations 0 j h err hf hc
    rw [Nat.zero_add] at this
    exact this
  · intro i hi _ hfi
    have := mem_matchingFrom message registrations 0 i hi hfi
    rw [Nat.zero_add] at this
    exact this

/-- A message sent by the user emitter, for exercising the dispatch model. -/
def demoMessage : Message :=
  { content := [("msg", PyVal.str "hi")]
    metadata :=
      { sender := { name := "autogpt-user", role := Role.USER }
        additional_metadata := [] } }

/-- Two registrations: one accepting USER messages, one accepting AGENT
messages — the scenario of the spec's testable-properties section. -/
def demoRegistrations : List ListenerRegistration :=
  [ { filter := MessageFilters.is_user_message
      callback := fun _ => CallbackOutcome.ok }
  , { filter := MessageFilters.is_agent_message
      callback := fun _ => CallbackOutcome.ok } ]

theorem publish_invokes_matching_exactly_once_witness :
    (publish demoRegistrations demoMessage).invoked.count 0 = 1 ∧
    (publish demoRegistrations demoMessage).invoked.count 1 = 0 :=
  ⟨(publish_invokes_matching_exactly_once demoRegistrations demoMessage 0
      (by simp [demoRegistrations])).1 rfl,
   (publish_invokes_matching_exactly_once demoRegistrations demoMessage 1
      (by simp [demoRegistrations])).2 rfl⟩

/-- Registrations where the first matching callback fails and a later listener
also matches. -/
def demoFailingRegistrations : List ListenerRegistration :=
  [ { filter := MessageFilters.is_user_message
      callback := fun _ => CallbackOutcome.failure "boom" }
  , { filter := MessageFilters.is_user_message
      callback := fun _ => CallbackOutcome.ok } ]

theorem publish_isolates_listener_failures_witness :
    (0, "boom") ∈ (publish demoFailingRegistrations demoMessage).dispatch.failures ∧
    1 ∈ (publish demoFailingRegistrations demoMessage).invoked ∧
    (publish demoFailingRegistrations demoMessage).success = true :=
  let h := publish_isolates_listener_failures demoFailingRegistrations demoMessage 0
    (by simp [demoFailingRegistrations]) "boom" rfl rfl
  ⟨h.1, h.2.1 1 (by simp [demoFailingRegistrations]) (by omega) rfl, h.2.2⟩

/-! ## The server's per-sender message queue -/

/-- The server's `message_queue = defaultdict(list)`, as a total map from
sender name to the list stored at that key (an absent key holds `[]`). -/
def MessageQueue : Type := String → List Message

/-- Embeds `FakeApplicationServer._add_to_queue`:
`self.message_queue[message.metadata.sender.name].append(message)`. -/
def addToQueue (queue : MessageQueue) (message : Message) : MessageQueue :=
  fun name =>
    if name = message.metadata.sender.name then queue name ++ [message]
    else queue name

/-- The sender name `boostrap_new_agent` collates responses from. -/
def agentFactorySenderName : String := "autogpt-agent-factory"

/-- Embeds the queue-collation step of `FakeApplicationServer.boostrap_new_agent`:
read the agent-factory queue, reset that key to the empty list, and attach the
read messages to the response; returns the updated queue and the attached
messages. -/
def collateAgentFactoryResponses (queue : MessageQueue) :
    MessageQueue × List Message :=
  (fun name => if name = agentFactorySenderName then [] else queue name,
   queue agentFactorySenderName)

/-- C8: `_add_to_queue` appends the message at the end of the queue keyed by
the message's sender name, preserving that queue's existing order, and leaves
every other sender's queue unchanged. -/
theorem addToQueue_appends_at_sender_key (queue : MessageQueue)
    (message : Message) :
    addToQueue queue message message.metadata.sender.name
      = queue message.metadata.sender.name ++ [message] ∧
    ∀ name, name ≠ message.metadata.sender.name →
      addToQueue queue message name = queue name := by
  constructor
  · simp [addToQueue]
  · intro name hne
    simp [addToQueue, hne]

/-- C10: after the collation step of `boostrap_new_agent`, the
agent-factory queue is empty, the response carries exactly the messages that
queue held beforehand in their original order, and every other sender's queue
is unchanged. -/
theorem collate_clears_factory_queue_and_keeps_messages (queue : MessageQueue) :
    (collateAgentFactoryResponses queue).1 agentFactorySenderName = [] ∧
    (collateAgentFactoryResponses queue).2 = queue agentFactorySenderName ∧
    ∀ name, name ≠ agentFactorySenderName →
      (collateAgentFactoryResponses queue).1 name = queue name := by
  refine ⟨by simp [collateAgentFactoryResponses], rfl, ?_⟩
  intro name hne
  simp [collateAgentFactoryResponses, hne]

end AutoGPT
